import Mathlib

/-!
Verification of the agentic RAG control loop of `src/main.py`
(`run_agentic_rag`, `retrieval_tool`, the critic and generator chains).

The embedding models one invocation of `run_agentic_rag(question, debug)`.
External collaborators are packaged in `Env`:

* `store` models the global `vector_store`: `none` before any index is built.
  When an index exists it holds the similarity-ranked chunk list that FAISS
  would produce for the query of this run, so a retriever call with candidate
  count `k` returns the first `k` elements of that ranking (`List.take k`) —
  the top-k contract of `vector_store.as_retriever(...).invoke`.
* `grade ctx q` models `critic_chain.invoke` followed by the
  `grade['binary_score']` lookup: `some s` when the call returns a parseable
  object whose `binary_score` field is the string `s`, `none` when the call
  raises or the output is unusable (caught by the `except` in the loop body).
* `generate ctx q` models `generator_chain.invoke`: `some a` when it returns a
  response with content `a`, `none` when it raises.
* `now` models `datetime.now().isoformat()` at the start of the run.

`runFull` returns the `RagResult` together with a `Trace` of the external
calls the code makes: every `retrieval_tool` invocation as a pair
(requested k, number of chunks returned), the chunk text of every
`critic_chain.invoke` in call order, and the context argument of every
`generator_chain.invoke`.
-/

namespace MiniRag

/-- A retrieved chunk; `page_content` mirrors `Document.page_content`. -/
structure Doc where
  page_content : String
deriving DecidableEq, Repr

/-- The telemetry accumulator `debug_info` built in `run_agentic_rag`
(src/main.py lines 166-171). -/
structure DebugInfo where
  total_retrieved : Nat
  relevant_chunks : Nat
  chunk_scores : List String
  timestamp : String
deriving DecidableEq, Repr

/-- The external collaborators of one `run_agentic_rag` invocation. -/
structure Env where
  store : Option (List Doc)
  now : String
  grade : String → String → Option String
  generate : String → String → Option String

/-- The dictionary returned by `run_agentic_rag`: the answer string and the
optional telemetry. -/
structure RagResult where
  answer : String
  debug_info : Option DebugInfo
deriving DecidableEq, Repr

/-- Trace of external calls made by one run: retrievals as
(requested k, chunks returned; 0 when the call raised), critic calls by chunk
text in call order, and generator calls by context argument. -/
structure Trace where
  retrievals : List (Nat × Nat)
  graded : List String
  generator_contexts : List String
deriving DecidableEq, Repr

/-- Python's `str.lower()` applied to the grader output (line 197 / 229),
modelled character-wise. -/
def pyLower (s : String) : String := ⟨s.data.map Char.toLower⟩

/-- `retrieval_tool(query, k)` (src/main.py lines 104-117): raises
`ValueError` (modelled as `none`) when `vector_store` is not initialized,
otherwise returns the top-k chunks of the ranking. -/
def retrieval_tool (env : Env) (k : Nat) : Option (List Doc) :=
  match env.store with
  | none => none
  | some ranking => some (ranking.take k)

/-- Fixed answer returned when retrieval raises (line 181). -/
def notReadyMsg : String := "System not ready. Please upload a PDF first."

/-- Fixed refusal returned when no chunk is judged relevant (line 245). -/
def refusalMsg : String :=
  "I\x27m sorry, but the provided document does not contain information relevant to your question. Please try rephrasing your question or upload a different document."

/-- Fixed answer returned when the generator call raises (line 266). -/
def genErrorMsg : String := "An error occurred while generating the answer. Please try again."

/-- The initial `debug_info` record (lines 166-171). -/
def initDebug (env : Env) : DebugInfo :=
  { total_retrieved := 0, relevant_chunks := 0, chunk_scores := [], timestamp := env.now }

/-- The judgment recorded in `chunk_scores` for one chunk text: the lowercased
`binary_score` on success (line 197), the sentinel `"error"` when the critic
call fails (line 208). -/
def scoreOf (env : Env) (question : String) (c : String) : String :=
  match env.grade c question with
  | some s => pyLower s
  | none => "error"

/-- One iteration of the first-pass grading loop body (lines 190-208): the
state is the pair (`valid_context`, `debug_info`). On success the lowercased
score is appended to `chunk_scores`; when it equals `"yes"` the chunk text is
appended to `valid_context` and `relevant_chunks` is incremented. On failure
the `except` branch at line 208 appends `"error"` and nothing else changes. -/
def gradeStep (env : Env) (question : String) (st : List String × DebugInfo)
    (doc : Doc) : List String × DebugInfo :=
  match env.grade doc.page_content question with
  | some s =>
    let score := pyLower s
    if score = "yes" then
      (st.1 ++ [doc.page_content],
       { st.2 with chunk_scores := st.2.chunk_scores ++ [score],
                   relevant_chunks := st.2.relevant_chunks + 1 })
    else
      (st.1, { st.2 with chunk_scores := st.2.chunk_scores ++ [score] })
  | none =>
    (st.1, { st.2 with chunk_scores := st.2.chunk_scores ++ ["error"] })

/-- The sequential first-pass grading loop (the `for` loop at line 189): one
critic call per chunk, in list order. -/
def gradeLoop (env : Env) (question : String) :
    List Doc → List String × DebugInfo → List String × DebugInfo
  | [], st => st
  | doc :: rest, st => gradeLoop env question rest (gradeStep env question st doc)

/-- One iteration of the fallback grading loop body (lines 222-237). The
success path is the same as in the first pass, but the `except` branch at
lines 236-237 only logs: a failed fallback grading call appends nothing to
`chunk_scores` and leaves the state unchanged. -/
def gradeStepFb (env : Env) (question : String) (st : List String × DebugInfo)
    (doc : Doc) : List String × DebugInfo :=
  match env.grade doc.page_content question with
  | some s =>
    let score := pyLower s
    if score = "yes" then
      (st.1 ++ [doc.page_content],
       { st.2 with chunk_scores := st.2.chunk_scores ++ [score],
                   relevant_chunks := st.2.relevant_chunks + 1 })
    else
      (st.1, { st.2 with chunk_scores := st.2.chunk_scores ++ [score] })
  | none => st

/-- The sequential fallback grading loop (the `for` loop at line 221): one
critic call per chunk, in list order, with the silent failure branch. -/
def gradeLoopFb (env : Env) (question : String) :
    List Doc → List String × DebugInfo → List String × DebugInfo
  | [], st => st
  | doc :: rest, st => gradeLoopFb env question rest (gradeStepFb env question st doc)

/-- The chunk texts a grading pass appends to `valid_context`: those whose
critic call succeeds with a lowercased score of `"yes"`, in list order. -/
def relevantTexts (env : Env) (question : String) (docs : List Doc) : List String :=
  docs.filterMap (fun doc =>
    match env.grade doc.page_content question with
    | some s => if pyLower s = "yes" then some doc.page_content else none
    | none => none)

/-- The judgments the fallback loop records for a chunk list: the lowercased
`binary_score` of each successful call, in call order. Failed calls record
nothing (lines 236-237). -/
def fbScores (env : Env) (question : String) (docs : List Doc) : List String :=
  docs.filterMap (fun doc => (env.grade doc.page_content question).map pyLower)

/-- State after Step 2 (lines 186-208): grade the first-pass retrieval
`ranking.take 5`, starting from an empty `valid_context` and the initial
telemetry with `total_retrieved` set to the number of chunks returned. -/
def pass1 (env : Env) (question : String) (ranking : List Doc) :
    List String × DebugInfo :=
  gradeLoop env question (ranking.take 5)
    ([], { initDebug env with total_retrieved := (ranking.take 5).length })

/-- State after Step 3 (lines 213-239): when `valid_context` is empty after
the first pass, re-retrieve with k = 10, overwrite `total_retrieved` with the
new count, and grade only `docs_extended[5:]` with the fallback loop (whose
`except` branch records nothing on failure). Otherwise the first-pass state
is kept unchanged. -/
def afterFallback (env : Env) (question : String) (ranking : List Doc) :
    List String × DebugInfo :=
  let st1 := pass1 env question ranking
  if st1.1 = [] then
    gradeLoopFb env question ((ranking.take 10).drop 5)
      (st1.1, { st1.2 with total_retrieved := (ranking.take 10).length })
  else st1

/-- Result and trace when `vector_store` is `None`: `retrieval_tool` raises,
the `except ValueError` branch (lines 178-183) returns the fixed not-ready
answer with the untouched initial telemetry; no critic or generator call. -/
def notReadyResult (env : Env) (debug : Bool) : RagResult × Trace :=
  ({ answer := notReadyMsg, debug_info := if debug then some (initDebug env) else none },
   { retrievals := [(5, 0)], graded := [], generator_contexts := [] })

/-- Steps 1-4 of `run_agentic_rag` when the store holds `ranking`
(lines 176-268). The trace records the retrieval calls (the k = 10 call
happens exactly when the first pass left `valid_context` empty), the chunks
passed to the critic (the first-pass chunks, then — in the fallback case
only — `docs_extended[5:]`), and the single generator call when
`valid_context` ends non-empty. Every return site of the source attaches the
same `debug_info` object when `debug` is set, so the result dictionary is
assembled once: the answer is the refusal when `valid_context` is empty,
otherwise the generated content, or the fixed error message when the
generator call raises. -/
def runReady (env : Env) (question : String) (debug : Bool)
    (ranking : List Doc) : RagResult × Trace :=
  let st1 := pass1 env question ranking
  let stF := afterFallback env question ranking
  let tr : Trace :=
    { retrievals :=
        if st1.1 = [] then
          [(5, (ranking.take 5).length), (10, (ranking.take 10).length)]
        else [(5, (ranking.take 5).length)],
      graded :=
        (ranking.take 5).map Doc.page_content ++
          (if st1.1 = [] then ((ranking.take 10).drop 5).map Doc.page_content else []),
      generator_contexts :=
        if stF.1 = [] then [] else [String.intercalate "\n\n" stF.1] }
  let ans : String :=
    if stF.1 = [] then refusalMsg
    else
      match env.generate (String.intercalate "\n\n" stF.1) question with
      | some a => a
      | none => genErrorMsg
  ({ answer := ans, debug_info := if debug then some stF.2 else none }, tr)

/-- `run_agentic_rag(question, debug)` (lines 157-268), paired with the trace
of the external calls it makes. -/
def runFull (env : Env) (question : String) (debug : Bool) : RagResult × Trace :=
  match env.store with
  | none => notReadyResult env debug
  | some ranking => runReady env question debug ranking

/-- The returned dictionary alone. -/
def run_agentic_rag (env : Env) (question : String) (debug : Bool) : RagResult :=
  (runFull env question debug).1

/-! ### Basic lemmas about the grading loop -/

lemma relevantTexts_cons (env : Env) (q : String) (doc : Doc) (rest : List Doc) :
    relevantTexts env q (doc :: rest) =
      (match env.grade doc.page_content q with
       | some s => if pyLower s = "yes" then [doc.page_content] else []
       | none => []) ++ relevantTexts env q rest := by
  unfold relevantTexts
  cases hg : env.grade doc.page_content q with
  | none => simp [List.filterMap_cons, hg]
  | some s => by_cases hs : pyLower s = "yes" <;> simp [List.filterMap_cons, hg, hs]

lemma gradeLoop_fst (env : Env) (q : String) (docs : List Doc) (v : List String)
    (d : DebugInfo) :
    (gradeLoop env q docs (v, d)).1 = v ++ relevantTexts env q docs := by
  induction docs generalizing v d with
  | nil => simp [gradeLoop, relevantTexts]
  | cons doc rest ih =>
    rw [gradeLoop]
    cases hg : env.grade doc.page_content q with
    | none => simp [gradeStep, hg, ih, relevantTexts_cons]
    | some s =>
      by_cases hs : pyLower s = "yes" <;>
        simp [gradeStep, hg, hs, ih, relevantTexts_cons]

lemma gradeLoop_scores (env : Env) (q : String) (docs : List Doc) (v : List String)
    (d : DebugInfo) :
    (gradeLoop env q docs (v, d)).2.chunk_scores =
      d.chunk_scores ++ (docs.map Doc.page_content).map (scoreOf env q) := by
  induction docs generalizing v d with
  | nil => simp [gradeLoop]
  | cons doc rest ih =>
    rw [gradeLoop]
    cases hg : env.grade doc.page_content q with
    | none => simp [gradeStep, hg, ih, scoreOf]
    | some s =>
      by_cases hs : pyLower s = "yes" <;>
        simp [gradeStep, hg, hs, ih, scoreOf]

lemma gradeLoop_total (env : Env) (q : String) (docs : List Doc) (v : List String)
    (d : DebugInfo) :
    (gradeLoop env q docs (v, d)).2.total_retrieved = d.total_retrieved := by
  induction docs generalizing v d with
  | nil => rfl
  | cons doc rest ih =>
    rw [gradeLoop]
    cases hg : env.grade doc.page_content q with
    | none => simp [gradeStep, hg, ih]
    | some s =>
      by_cases hs : pyLower s = "yes" <;> simp [gradeStep, hg, hs, ih]

lemma gradeLoop_count (env : Env) (q : String) (docs : List Doc) (v : List String)
    (d : DebugInfo) (h : d.relevant_chunks = d.chunk_scores.count "yes") :
    (gradeLoop env q docs (v, d)).2.relevant_chunks =
      ((gradeLoop env q docs (v, d)).2.chunk_scores).count "yes" := by
  induction docs generalizing v d with
  | nil => simpa [gradeLoop] using h
  | cons doc rest ih =>
    rw [gradeLoop]
    cases hg : env.grade doc.page_content q with
    | none =>
      refine ih _ _ ?_
      simp [gradeStep, hg, h, List.count_append]
    | some s =>
      by_cases hs : pyLower s = "yes"
      · refine ih _ _ ?_
        simp [gradeStep, hg, hs, h, List.count_append]
      · refine ih _ _ ?_
        simp [gradeStep, hg, hs, h, List.count_append, Ne.symm hs]

lemma gradeLoopFb_fst (env : Env) (q : String) (docs : List Doc) (v : List String)
    (d : DebugInfo) :
    (gradeLoopFb env q docs (v, d)).1 = v ++ relevantTexts env q docs := by
  induction docs generalizing v d with
  | nil => simp [gradeLoopFb, relevantTexts]
  | cons doc rest ih =>
    rw [gradeLoopFb]
    cases hg : env.grade doc.page_content q with
    | none => simp [gradeStepFb, hg, ih, relevantTexts_cons]
    | some s =>
      by_cases hs : pyLower s = "yes" <;>
        simp [gradeStepFb, hg, hs, ih, relevantTexts_cons]

lemma fbScores_cons (env : Env) (q : String) (doc : Doc) (rest : List Doc) :
    fbScores env q (doc :: rest) =
      (match env.grade doc.page_content q with
       | some s => [pyLower s]
       | none => []) ++ fbScores env q rest := by
  unfold fbScores
  cases hg : env.grade doc.page_content q with
  | none => simp [List.filterMap_cons, hg]
  | some s => simp [List.filterMap_cons, hg]

lemma gradeLoopFb_scores (env : Env) (q : String) (docs : List Doc)
    (v : List String) (d : DebugInfo) :
    (gradeLoopFb env q docs (v, d)).2.chunk_scores =
      d.chunk_scores ++ fbScores env q docs := by
  induction docs generalizing v d with
  | nil => simp [gradeLoopFb, fbScores]
  | cons doc rest ih =>
    rw [gradeLoopFb]
    cases hg : env.grade doc.page_content q with
    | none => simp [gradeStepFb, hg, ih, fbScores_cons]
    | some s =>
      by_cases hs : pyLower s = "yes" <;>
        simp [gradeStepFb, hg, hs, ih, fbScores_cons]

lemma gradeLoopFb_total (env : Env) (q : String) (docs : List Doc)
    (v : List String) (d : DebugInfo) :
    (gradeLoopFb env q docs (v, d)).2.total_retrieved = d.total_retrieved := by
  induction docs generalizing v d with
  | nil => rfl
  | cons doc rest ih =>
    rw [gradeLoopFb]
    cases hg : env.grade doc.page_content q with
    | none => simp [gradeStepFb, hg, ih]
    | some s =>
      by_cases hs : pyLower s = "yes" <;> simp [gradeStepFb, hg, hs, ih]

lemma gradeLoopFb_count (env : Env) (q : String) (docs : List Doc)
    (v : List String) (d : DebugInfo)
    (h : d.relevant_chunks = d.chunk_scores.count "yes") :
    (gradeLoopFb env q docs (v, d)).2.relevant_chunks =
      ((gradeLoopFb env q docs (v, d)).2.chunk_scores).count "yes" := by
  induction docs generalizing v d with
  | nil => simpa [gradeLoopFb] using h
  | cons doc rest ih =>
    rw [gradeLoopFb]
    cases hg : env.grade doc.page_content q with
    | none =>
      refine ih _ _ ?_
      simp [gradeStepFb, hg, h]
    | some s =>
      by_cases hs : pyLower s = "yes"
      · refine ih _ _ ?_
        simp [gradeStepFb, hg, hs, h, List.count_append]
      · refine ih _ _ ?_
        simp [gradeStepFb, hg, hs, h, List.count_append, Ne.symm hs]

/-! ### The two grading passes -/

lemma pass1_fst (env : Env) (q : String) (ranking : List Doc) :
    (pass1 env q ranking).1 = relevantTexts env q (ranking.take 5) := by
  unfold pass1
  rw [gradeLoop_fst]
  simp

lemma pass1_scores (env : Env) (q : String) (ranking : List Doc) :
    (pass1 env q ranking).2.chunk_scores =
      ((ranking.take 5).map Doc.page_content).map (scoreOf env q) := by
  unfold pass1
  rw [gradeLoop_scores]
  simp [initDebug]

lemma pass1_total (env : Env) (q : String) (ranking : List Doc) :
    (pass1 env q ranking).2.total_retrieved = (ranking.take 5).length := by
  unfold pass1
  rw [gradeLoop_total]

lemma pass1_count (env : Env) (q : String) (ranking : List Doc) :
    (pass1 env q ranking).2.relevant_chunks =
      (pass1 env q ranking).2.chunk_scores.count "yes" := by
  unfold pass1
  exact gradeLoop_count env q _ _ _ (by simp [initDebug])

lemma afterFallback_fst (env : Env) (q : String) (ranking : List Doc) :
    (afterFallback env q ranking).1 =
      relevantTexts env q (ranking.take 5) ++
        (if relevantTexts env q (ranking.take 5) = [] then
          relevantTexts env q ((ranking.take 10).drop 5) else []) := by
  unfold afterFallback
  by_cases h : (pass1 env q ranking).1 = []
  · rw [if_pos h, gradeLoopFb_fst, h]
    rw [pass1_fst] at h
    simp [h]
  · rw [if_neg h, pass1_fst]
    rw [pass1_fst] at h
    simp [h]

lemma afterFallback_scores (env : Env) (q : String) (ranking : List Doc) :
    (afterFallback env q ranking).2.chunk_scores =
      ((ranking.take 5).map Doc.page_content).map (scoreOf env q) ++
        (if (pass1 env q ranking).1 = [] then
          fbScores env q ((ranking.take 10).drop 5) else []) := by
  unfold afterFallback
  by_cases h : (pass1 env q ranking).1 = []
  · rw [if_pos h, gradeLoopFb_scores]
    simp [h, pass1_scores]
  · rw [if_neg h]
    simp [h, pass1_scores]

lemma afterFallback_count (env : Env) (q : String) (ranking : List Doc) :
    (afterFallback env q ranking).2.relevant_chunks =
      (afterFallback env q ranking).2.chunk_scores.count "yes" := by
  unfold afterFallback
  by_cases h : (pass1 env q ranking).1 = []
  · rw [if_pos h]
    exact gradeLoopFb_count env q _ _ _ (by simpa using pass1_count env q ranking)
  · rw [if_neg h]
    exact pass1_count env q ranking

lemma afterFallback_total (env : Env) (q : String) (ranking : List Doc) :
    (afterFallback env q ranking).2.total_retrieved =
      (if (pass1 env q ranking).1 = [] then (ranking.take 10).length
       else (ranking.take 5).length) := by
  unfold afterFallback
  by_cases h : (pass1 env q ranking).1 = [] <;>
    simp [h, gradeLoopFb_total, pass1_total]

/-! ### Unfolding the entry point -/

lemma runFull_none (env : Env) (q : String) (debug : Bool) (h : env.store = none) :
    runFull env q debug = notReadyResult env debug := by
  unfold runFull
  rw [h]

lemma runFull_some (env : Env) (q : String) (debug : Bool) (ranking : List Doc)
    (h : env.store = some ranking) :
    runFull env q debug = runReady env q debug ranking := by
  unfold runFull
  rw [h]

lemma runReady_debug (env : Env) (q : String) (debug : Bool) (ranking : List Doc) :
    (runReady env q debug ranking).1.debug_info =
      if debug then some (afterFallback env q ranking).2 else none := rfl

lemma runReady_trace (env : Env) (q : String) (debug : Bool) (ranking : List Doc) :
    (runReady env q debug ranking).2 =
      { retrievals :=
          if (pass1 env q ranking).1 = [] then
            [(5, (ranking.take 5).length), (10, (ranking.take 10).length)]
          else [(5, (ranking.take 5).length)],
        graded :=
          (ranking.take 5).map Doc.page_content ++
            (if (pass1 env q ranking).1 = [] then
              ((ranking.take 10).drop 5).map Doc.page_content else []),
        generator_contexts :=
          if (afterFallback env q ranking).1 = [] then []
          else [String.intercalate "\n\n" (afterFallback env q ranking).1] } := rfl

lemma runReady_answer (env : Env) (q : String) (debug : Bool) (ranking : List Doc) :
    (runReady env q debug ranking).1.answer =
      if (afterFallback env q ranking).1 = [] then refusalMsg
      else
        match env.generate
            (String.intercalate "\n\n" (afterFallback env q ranking).1) q with
        | some a => a
        | none => genErrorMsg := rfl

/-- The hardcoded slice `docs_extended[5:]` coincides with dropping the number
of chunks the first pass actually returned: a top-k retriever returning fewer
than 5 chunks has exhausted the ranking, so the k = 10 pass cannot return
more. -/
lemma drop_five_take_ten (r : List Doc) :
    (r.take 10).drop 5 = (r.take 10).drop ((r.take 5).length) := by
  rcases le_or_lt 5 r.length with h | h
  · rw [List.length_take, Nat.min_eq_left h]
  · have e10 : (r.take 10).length ≤ 5 := by
      rw [List.length_take]; omega
    rw [List.drop_eq_nil_of_le e10,
      List.drop_eq_nil_of_le (by rw [List.length_take, List.length_take]; omega)]

/-! ### Concrete environments used to instantiate the theorems -/

/-- A ten-chunk ranking. -/
def docsTen : List Doc :=
  [⟨"c1"⟩, ⟨"c2"⟩, ⟨"c3"⟩, ⟨"c4"⟩, ⟨"c5"⟩, ⟨"c6"⟩, ⟨"c7"⟩, ⟨"c8"⟩, ⟨"c9"⟩, ⟨"c10"⟩]

/-- A two-chunk ranking. -/
def docsTwo : List Doc := [⟨"a"⟩, ⟨"b"⟩]

/-- A one-chunk ranking. -/
def docsOne : List Doc := [⟨"a"⟩]

/-- Grader always answers no: every chunk judged not relevant. -/
def envAllNo : Env :=
  { store := some docsTen, now := "t0",
    grade := fun _ _ => some "no", generate := fun _ _ => some "ans" }

/-- Grader accepts chunk `a` and fails on everything else. -/
def envOneYes : Env :=
  { store := some docsTwo, now := "t0",
    grade := fun c _ => if c = "a" then some "Yes" else none,
    generate := fun _ _ => some "ans" }

/-- No index built yet. -/
def envNoStore : Env :=
  { store := none, now := "t0",
    grade := fun _ _ => some "yes", generate := fun _ _ => some "ans" }

/-- Grader call always raises. -/
def envGradeFail : Env :=
  { store := some docsOne, now := "t0",
    grade := fun _ _ => none, generate := fun _ _ => some "ans" }

/-- Generator call raises. -/
def envGenFail : Env :=
  { store := some docsOne, now := "t0",
    grade := fun _ _ => some "yes", generate := fun _ _ => none }

/-- A six-chunk ranking. -/
def docsSix : List Doc := [⟨"c1"⟩, ⟨"c2"⟩, ⟨"c3"⟩, ⟨"c4"⟩, ⟨"c5"⟩, ⟨"c6"⟩]

/-- Grader answers no on the first five chunks and raises on the sixth, which
is reached only in the fallback pass. -/
def envFbFail : Env :=
  { store := some docsSix, now := "t0",
    grade := fun c _ => if c = "c6" then none else some "no",
    generate := fun _ _ => some "ans" }

/-- Telemetry produced by `envFbFail`: six chunks retrieved by the fallback
pass, five first-pass scores recorded; the failed fallback grading of the
sixth chunk leaves no trace in the scores. -/
def dFbFail : DebugInfo :=
  { total_retrieved := 6, relevant_chunks := 0,
    chunk_scores := ["no", "no", "no", "no", "no"], timestamp := "t0" }

/-- Grader returns the non-binary output `Maybe`. -/
def envMaybe : Env :=
  { store := some docsOne, now := "t0",
    grade := fun _ _ => some "Maybe", generate := fun _ _ => some "ans" }

/-- Grader answers `Yes` for chunk `a` and `NO` otherwise: conformant but
mixed-case binary output. -/
def envYesNo : Env :=
  { store := some docsTwo, now := "t0",
    grade := fun c _ => if c = "a" then some "Yes" else some "NO",
    generate := fun _ _ => some "ans" }

/-- Telemetry produced by `envOneYes`: two chunks retrieved, the first judged
yes, the second a grading failure. -/
def dOneYes : DebugInfo :=
  { total_retrieved := 2, relevant_chunks := 1, chunk_scores := ["yes", "error"],
    timestamp := "t0" }

/-- Telemetry produced by `envAllNo`: all ten chunks across both passes
judged no. -/
def dAllNo : DebugInfo :=
  { total_retrieved := 10, relevant_chunks := 0,
    chunk_scores := ["no", "no", "no", "no", "no", "no", "no", "no", "no", "no"],
    timestamp := "t0" }

/-- Telemetry produced by `envYesNo`. -/
def dYesNo : DebugInfo :=
  { total_retrieved := 2, relevant_chunks := 1, chunk_scores := ["yes", "no"],
    timestamp := "t0" }

/-! ### The claims -/

/-- Claim C1: when first-pass grading yields zero relevant chunks, exactly one
fallback retrieval with k = 10 occurs (the retrieval trace is exactly the
first-pass call followed by the k = 10 call — no second escalation tier), and
the critic grades exactly the first-pass chunks followed by the fallback
chunks beyond the number the first pass actually returned; first-pass chunks
are not re-graded. -/
theorem fallback_regrades_only_new_chunks (env : Env) (q : String) (debug : Bool)
    (ranking : List Doc) (hs : env.store = some ranking)
    (h0 : relevantTexts env q (ranking.take 5) = []) :
    (runFull env q debug).2.retrievals =
      [(5, (ranking.take 5).length), (10, (ranking.take 10).length)] ∧
    (runFull env q debug).2.graded =
      (ranking.take 5).map Doc.page_content ++
        ((ranking.take 10).drop ((ranking.take 5).length)).map Doc.page_content := by
  have hp : (pass1 env q ranking).1 = [] := by rw [pass1_fst]; exact h0
  rw [runFull_some env q debug ranking hs, runReady_trace]
  constructor
  · simp [hp]
  · simp [hp, drop_five_take_ten]

theorem fallback_regrades_only_new_chunks_witness :
    envAllNo.store = some docsTen ∧
    relevantTexts envAllNo "q" (docsTen.take 5) = [] ∧
    ((runFull envAllNo "q" true).2.retrievals =
        [(5, (docsTen.take 5).length), (10, (docsTen.take 10).length)] ∧
      (runFull envAllNo "q" true).2.graded =
        (docsTen.take 5).map Doc.page_content ++
          ((docsTen.take 10).drop ((docsTen.take 5).length)).map Doc.page_content) :=
  ⟨rfl, by decide,
    fallback_regrades_only_new_chunks envAllNo "q" true docsTen rfl (by decide)⟩

/-- Claim C2: for every returned telemetry record, `relevant_chunks` equals the
number of entries of `chunk_scores` equal to the relevant tag, which the code
realizes as the grader string `"yes"`. -/
theorem telemetry_relevant_count_invariant (env : Env) (q : String) (debug : Bool)
    (d : DebugInfo) (hd : (run_agentic_rag env q debug).debug_info = some d) :
    d.relevant_chunks = d.chunk_scores.count "yes" := by
  unfold run_agentic_rag at hd
  cases hstore : env.store with
  | none =>
    rw [runFull_none env q debug hstore] at hd
    unfold notReadyResult at hd
    cases debug with
    | false => simp at hd
    | true =>
      simp at hd
      subst hd
      simp [initDebug]
  | some ranking =>
    rw [runFull_some env q debug ranking hstore, runReady_debug] at hd
    cases debug with
    | false => simp at hd
    | true =>
      simp at hd
      subst hd
      exact afterFallback_count env q ranking

theorem telemetry_relevant_count_invariant_witness :
    (run_agentic_rag envOneYes "q" true).debug_info = some dOneYes ∧
    dOneYes.relevant_chunks = dOneYes.chunk_scores.count "yes" :=
  ⟨by decide, telemetry_relevant_count_invariant envOneYes "q" true dOneYes (by decide)⟩

/-- Claim C3: the generator is invoked at most once per query, and exactly when
the accumulated relevant set is non-empty; when the set is empty after both
passes the generator is never called and the answer is the fixed refusal. -/
theorem generator_at_most_once (env : Env) (q : String) (debug : Bool)
    (ranking : List Doc) (hs : env.store = some ranking) :
    (runFull env q debug).2.generator_contexts.length ≤ 1 ∧
    ((afterFallback env q ranking).1 = [] →
      (runFull env q debug).2.generator_contexts = [] ∧
      (runFull env q debug).1.answer = refusalMsg) ∧
    ((afterFallback env q ranking).1 ≠ [] →
      (runFull env q debug).2.generator_contexts =
        [String.intercalate "\n\n" (afterFallback env q ranking).1]) := by
  refine ⟨?_, fun h => ⟨?_, ?_⟩, fun h => ?_⟩
  · rw [runFull_some env q debug ranking hs, runReady_trace]
    by_cases h : (afterFallback env q ranking).1 = [] <;> simp [h]
  · rw [runFull_some env q debug ranking hs, runReady_trace]
    simp [h]
  · rw [runFull_some env q debug ranking hs, runReady_answer]
    simp [h]
  · rw [runFull_some env q debug ranking hs, runReady_trace]
    simp [h]

theorem generator_at_most_once_witness :
    envAllNo.store = some docsTen ∧
    ((runFull envAllNo "q" true).2.generator_contexts.length ≤ 1 ∧
      ((afterFallback envAllNo "q" docsTen).1 = [] →
        (runFull envAllNo "q" true).2.generator_contexts = [] ∧
        (runFull envAllNo "q" true).1.answer = refusalMsg) ∧
      ((afterFallback envAllNo "q" docsTen).1 ≠ [] →
        (runFull envAllNo "q" true).2.generator_contexts =
          [String.intercalate "\n\n" (afterFallback envAllNo "q" docsTen).1])) :=
  ⟨rfl, generator_at_most_once envAllNo "q" true docsTen rfl⟩

/-- Claim C4: with no index built, the run returns the fixed not-ready answer,
the critic and generator are never called, and the telemetry (attached exactly
when debug was requested) holds only the empty defaults. -/
theorem not_ready_short_circuits (env : Env) (q : String) (debug : Bool)
    (h : env.store = none) :
    (runFull env q debug).1.answer = notReadyMsg ∧
    (runFull env q debug).2.graded = [] ∧
    (runFull env q debug).2.generator_contexts = [] ∧
    (runFull env q debug).1.debug_info =
      (if debug then some (initDebug env) else none) ∧
    initDebug env =
      { total_retrieved := 0, relevant_chunks := 0, chunk_scores := [],
        timestamp := env.now } := by
  rw [runFull_none env q debug h]
  exact ⟨rfl, rfl, rfl, rfl, rfl⟩

theorem not_ready_short_circuits_witness :
    envNoStore.store = none ∧
    ((runFull envNoStore "q" true).1.answer = notReadyMsg ∧
      (runFull envNoStore "q" true).2.graded = [] ∧
      (runFull envNoStore "q" true).2.generator_contexts = [] ∧
      (runFull envNoStore "q" true).1.debug_info =
        (if true then some (initDebug envNoStore) else none) ∧
      initDebug envNoStore =
        { total_retrieved := 0, relevant_chunks := 0, chunk_scores := [],
          timestamp := envNoStore.now }) :=
  ⟨rfl, not_ready_short_circuits envNoStore "q" true rfl⟩

/-- Claim C5 counterexample: not every failed grading call records the
sentinel. At a six-chunk index whose sixth chunk's grading call (reached only
in the fallback pass) raises, the sixth chunk is graded, yet the returned
score sequence contains no `"error"` entry: the fallback loop's `except`
(lines 236-237) only logs. -/
theorem grading_failure_sentinel_counterexample :
    envFbFail.grade (Doc.page_content ⟨"c6"⟩) "q" = none ∧
    "c6" ∈ (runFull envFbFail "q" true).2.graded ∧
    (run_agentic_rag envFbFail "q" true).debug_info = some dFbFail ∧
    "error" ∉ dFbFail.chunk_scores :=
  ⟨rfl, by decide, by decide, by decide⟩

/-- Claim C5 (amended): a failed first-pass grading call appends the sentinel
`"error"` (distinct from the yes/no judgment tags) to `chunk_scores`, leaves
`valid_context` and `relevant_chunks` unchanged, and the loop continues with
the remaining chunks; a failed fallback-pass grading call likewise leaves the
chunk out of the relevant set and never aborts the loop, but records nothing
in telemetry. -/
theorem grading_failure_degrades_to_sentinel (env : Env) (q : String) (doc : Doc)
    (rest : List Doc) (v : List String) (d : DebugInfo)
    (h : env.grade doc.page_content q = none) :
    gradeStep env q (v, d) doc =
      (v, { d with chunk_scores := d.chunk_scores ++ ["error"] }) ∧
    gradeLoop env q (doc :: rest) (v, d) =
      gradeLoop env q rest
        (v, { d with chunk_scores := d.chunk_scores ++ ["error"] }) ∧
    gradeStepFb env q (v, d) doc = (v, d) ∧
    gradeLoopFb env q (doc :: rest) (v, d) = gradeLoopFb env q rest (v, d) ∧
    scoreOf env q doc.page_content = "error" ∧
    "error" ≠ "yes" ∧ "error" ≠ "no" := by
  have h1 : gradeStep env q (v, d) doc =
      (v, { d with chunk_scores := d.chunk_scores ++ ["error"] }) := by
    simp [gradeStep, h]
  have h2 : gradeStepFb env q (v, d) doc = (v, d) := by
    simp [gradeStepFb, h]
  refine ⟨h1, ?_, h2, ?_, ?_, by decide, by decide⟩
  · rw [gradeLoop, h1]
  · rw [gradeLoopFb, h2]
  · simp [scoreOf, h]

theorem grading_failure_degrades_to_sentinel_witness :
    envGradeFail.grade (Doc.page_content ⟨"a"⟩) "q" = none ∧
    (gradeStep envGradeFail "q" ([], initDebug envGradeFail) ⟨"a"⟩ =
        ([], { initDebug envGradeFail with
                chunk_scores := (initDebug envGradeFail).chunk_scores ++ ["error"] }) ∧
      gradeLoop envGradeFail "q" [⟨"a"⟩] ([], initDebug envGradeFail) =
        gradeLoop envGradeFail "q" []
          ([], { initDebug envGradeFail with
                  chunk_scores := (initDebug envGradeFail).chunk_scores ++ ["error"] }) ∧
      gradeStepFb envGradeFail "q" ([], initDebug envGradeFail) ⟨"a"⟩ =
        ([], initDebug envGradeFail) ∧
      gradeLoopFb envGradeFail "q" [⟨"a"⟩] ([], initDebug envGradeFail) =
        gradeLoopFb envGradeFail "q" [] ([], initDebug envGradeFail) ∧
      scoreOf envGradeFail "q" (Doc.page_content ⟨"a"⟩) = "error" ∧
      "error" ≠ "yes" ∧ "error" ≠ "no") :=
  ⟨rfl, grading_failure_degrades_to_sentinel envGradeFail "q" ⟨"a"⟩ [] []
    (initDebug envGradeFail) rfl⟩

/-- Claim C6: when the generation call raises, the run still returns a result:
the answer is the fixed generation-error message and the telemetry is attached
exactly when debug was requested. -/
theorem generation_failure_recovered (env : Env) (q : String) (debug : Bool)
    (ranking : List Doc) (hs : env.store = some ranking)
    (hv : (afterFallback env q ranking).1 ≠ [])
    (hg : env.generate
        (String.intercalate "\n\n" (afterFallback env q ranking).1) q = none) :
    (runFull env q debug).1.answer = genErrorMsg ∧
    (runFull env q debug).1.debug_info =
      (if debug then some (afterFallback env q ranking).2 else none) := by
  constructor
  · rw [runFull_some env q debug ranking hs, runReady_answer]
    simp [hv, hg]
  · rw [runFull_some env q debug ranking hs, runReady_debug]

theorem generation_failure_recovered_witness :
    envGenFail.store = some docsOne ∧
    (afterFallback envGenFail "q" docsOne).1 ≠ [] ∧
    envGenFail.generate
      (String.intercalate "\n\n" (afterFallback envGenFail "q" docsOne).1) "q" = none ∧
    ((runFull envGenFail "q" true).1.answer = genErrorMsg ∧
      (runFull envGenFail "q" true).1.debug_info =
        (if true then some (afterFallback envGenFail "q" docsOne).2 else none)) :=
  ⟨rfl, by decide, rfl,
    generation_failure_recovered envGenFail "q" true docsOne rfl (by decide) rfl⟩

/-- Claim C7 counterexample: the code records the grader's raw lowercased
`binary_score` in `chunk_scores`, so a grader output of `Maybe` yields the
entry `"maybe"`, which is none of the three judgment tags (neither in the
code's naming yes/no/error nor in the spec's naming
relevant/not_relevant/error). -/
theorem chunk_score_tags_counterexample :
    (run_agentic_rag envMaybe "q" true).debug_info =
      some { total_retrieved := 1, relevant_chunks := 0,
             chunk_scores := ["maybe"], timestamp := "t0" } ∧
    "maybe" ≠ "yes" ∧ "maybe" ≠ "no" ∧ "maybe" ≠ "error" ∧
    "maybe" ≠ "relevant" ∧ "maybe" ≠ "not_relevant" :=
  ⟨by decide, by decide, by decide, by decide, by decide, by decide⟩

/-- Claim C7 (amended): each entry of `chunk_scores` is either the sentinel
`"error"` or the grader's lowercased `binary_score`; in particular, when the
grader conforms to its prompt and only returns (case variants of) yes or no,
every entry is one of exactly the three tags yes, no, error. -/
theorem chunk_scores_from_grader_output (env : Env) (q : String) (debug : Bool)
    (d : DebugInfo)
    (hwf : ∀ c s, env.grade c q = some s → pyLower s = "yes" ∨ pyLower s = "no")
    (hd : (run_agentic_rag env q debug).debug_info = some d) :
    ∀ e ∈ d.chunk_scores, e = "yes" ∨ e = "no" ∨ e = "error" := by
  have key : ∀ (l : List String) (e : String), e ∈ l.map (scoreOf env q) →
      e = "yes" ∨ e = "no" ∨ e = "error" := by
    intro l e he
    rcases List.mem_map.mp he with ⟨c, _, rfl⟩
    unfold scoreOf
    cases hg : env.grade c q with
    | none => exact Or.inr (Or.inr rfl)
    | some s =>
      rcases hwf c s hg with h | h
      · exact Or.inl h
      · exact Or.inr (Or.inl h)
  unfold run_agentic_rag at hd
  cases hstore : env.store with
  | none =>
    rw [runFull_none env q debug hstore] at hd
    unfold notReadyResult at hd
    cases debug with
    | false => simp at hd
    | true =>
      simp at hd
      subst hd
      simp [initDebug]
  | some ranking =>
    rw [runFull_some env q debug ranking hstore, runReady_debug] at hd
    cases debug with
    | false => simp at hd
    | true =>
      simp at hd
      subst hd
      intro e he
      rw [afterFallback_scores] at he
      rcases List.mem_append.mp he with h | h
      · exact key _ e h
      · by_cases hp : (pass1 env q ranking).1 = []
        · rw [if_pos hp] at h
          rcases List.mem_filterMap.mp h with ⟨doc, _, hdoc⟩
          cases hg : env.grade doc.page_content q with
          | none => rw [hg] at hdoc; simp at hdoc
          | some s =>
            rw [hg] at hdoc
            simp at hdoc
            rcases hwf doc.page_content s hg with hy | hn
            · exact Or.inl (hdoc ▸ hy)
            · exact Or.inr (Or.inl (hdoc ▸ hn))
        · rw [if_neg hp] at h
          simp at h

theorem chunk_scores_from_grader_output_witness :
    (∀ c s, envYesNo.grade c "q" = some s →
      pyLower s = "yes" ∨ pyLower s = "no") ∧
    (run_agentic_rag envYesNo "q" true).debug_info = some dYesNo ∧
    (∀ e ∈ dYesNo.chunk_scores, e = "yes" ∨ e = "no" ∨ e = "error") := by
  have hwf : ∀ c s, envYesNo.grade c "q" = some s →
      pyLower s = "yes" ∨ pyLower s = "no" := by
    intro c s h
    have h' : (if c = "a" then some "Yes" else some "NO") = some s := h
    split_ifs at h' with hc
    · injection h' with h2
      subst h2
      exact Or.inl (by decide)
    · injection h' with h2
      subst h2
      exact Or.inr (by decide)
  exact ⟨hwf, by decide,
    chunk_scores_from_grader_output envYesNo "q" true dYesNo hwf (by decide)⟩

/-- Claim C8: `valid_context` is the first-pass relevant chunk texts followed
by the fallback-pass relevant chunk texts (the latter collected only when the
first pass yielded none), and the generator is invoked exactly once with the
double-newline concatenation of that list when it is non-empty. -/
theorem generator_context_is_relevant_concat (env : Env) (q : String)
    (debug : Bool) (ranking : List Doc) (hs : env.store = some ranking) :
    (afterFallback env q ranking).1 =
      relevantTexts env q (ranking.take 5) ++
        (if relevantTexts env q (ranking.take 5) = [] then
          relevantTexts env q ((ranking.take 10).drop 5) else []) ∧
    (runFull env q debug).2.generator_contexts =
      (if (afterFallback env q ranking).1 = [] then []
       else [String.intercalate "\n\n" (afterFallback env q ranking).1]) := by
  refine ⟨afterFallback_fst env q ranking, ?_⟩
  rw [runFull_some env q debug ranking hs, runReady_trace]

theorem generator_context_is_relevant_concat_witness :
    envOneYes.store = some docsTwo ∧
    ((afterFallback envOneYes "q" docsTwo).1 =
        relevantTexts envOneYes "q" (docsTwo.take 5) ++
          (if relevantTexts envOneYes "q" (docsTwo.take 5) = [] then
            relevantTexts envOneYes "q" ((docsTwo.take 10).drop 5) else []) ∧
      (runFull envOneYes "q" true).2.generator_contexts =
        (if (afterFallback envOneYes "q" docsTwo).1 = [] then []
         else [String.intercalate "\n\n" (afterFallback envOneYes "q" docsTwo).1])) :=
  ⟨rfl, generator_context_is_relevant_concat envOneYes "q" true docsTwo rfl⟩

/-- Claim C9 counterexample: with a ten-chunk index and an all-no grader, the
first pass retrieves 5 chunks and the fallback pass retrieves 10, yet the
returned `total_retrieved` is 10, not the across-passes total 5 + 10 = 15:
line 219 overwrites the counter instead of adding to it. -/
theorem total_retrieved_overwritten_counterexample :
    (runFull envAllNo "q" true).2.retrievals = [(5, 5), (10, 10)] ∧
    (run_agentic_rag envAllNo "q" true).debug_info = some dAllNo ∧
    dAllNo.total_retrieved = 10 ∧ (5 : Nat) + 10 = 15 ∧ (10 : Nat) ≠ 15 :=
  ⟨by decide, by decide, by decide, by decide, by decide⟩

/-- Claim C9 (amended): `total_retrieved` equals the chunk count of the most
recent retrieval pass — the fallback pass's count when the fallback triggered
(overwriting the first-pass count), otherwise the first-pass count. Under the
retriever's top-k semantics the fallback's chunks are a superset of the first
pass's, so this also equals the number of distinct chunks retrieved across
all passes. -/
theorem total_retrieved_last_pass (env : Env) (q : String) (debug : Bool)
    (ranking : List Doc) (hs : env.store = some ranking) (d : DebugInfo)
    (hd : (run_agentic_rag env q debug).debug_info = some d) :
    d.total_retrieved =
      (if (pass1 env q ranking).1 = [] then (ranking.take 10).length
       else (ranking.take 5).length) := by
  unfold run_agentic_rag at hd
  rw [runFull_some env q debug ranking hs, runReady_debug] at hd
  cases debug with
  | false => simp at hd
  | true =>
    simp at hd
    subst hd
    exact afterFallback_total env q ranking

theorem total_retrieved_last_pass_witness :
    envAllNo.store = some docsTen ∧
    (run_agentic_rag envAllNo "q" true).debug_info = some dAllNo ∧
    dAllNo.total_retrieved =
      (if (pass1 envAllNo "q" docsTen).1 = [] then (docsTen.take 10).length
       else (docsTen.take 5).length) :=
  ⟨rfl, by decide,
    total_retrieved_last_pass envAllNo "q" true docsTen rfl dAllNo (by decide)⟩

/-- Claim C10 counterexample: the recorded scores are not one per graded
chunk with `"error"` standing for failed calls. At a six-chunk index whose
sixth chunk's grading call (reached in the fallback pass) raises, six chunks
are graded but only five scores are recorded: the failed call leaves no
`"error"` entry, so the score sequence is not the per-graded-chunk judgment
map. -/
theorem raw_scores_missing_entry_counterexample :
    envFbFail.grade (Doc.page_content ⟨"c6"⟩) "q" = none ∧
    (runFull envFbFail "q" true).2.graded =
      ["c1", "c2", "c3", "c4", "c5", "c6"] ∧
    (run_agentic_rag envFbFail "q" true).debug_info = some dFbFail ∧
    dFbFail.chunk_scores.length = 5 ∧
    dFbFail.chunk_scores ≠
      ((runFull envFbFail "q" true).2.graded).map (scoreOf envFbFail "q") :=
  ⟨rfl, by decide, by decide, by decide, by decide⟩

/-- Claim C10 (amended): for every returned telemetry record,
`relevant_chunks` equals the number of `chunk_scores` entries equal to
`"yes"`, and the recorded scores are exactly: the lowercased raw
`binary_score` — or `"error"` on a failed call — of each first-pass chunk in
rank order, followed, when the fallback triggered, by the lowercased raw
`binary_score` of the successful fallback-pass calls only; a failed
fallback-pass call records nothing. -/
theorem raw_scores_drive_relevant_count (env : Env) (q : String) (debug : Bool)
    (ranking : List Doc) (hs : env.store = some ranking) (d : DebugInfo)
    (hd : (run_agentic_rag env q debug).debug_info = some d) :
    d.chunk_scores =
      ((ranking.take 5).map Doc.page_content).map (scoreOf env q) ++
        (if (pass1 env q ranking).1 = [] then
          fbScores env q ((ranking.take 10).drop 5) else []) ∧
    d.relevant_chunks = d.chunk_scores.count "yes" := by
  unfold run_agentic_rag at hd
  rw [runFull_some env q debug ranking hs, runReady_debug] at hd
  cases debug with
  | false => simp at hd
  | true =>
    simp at hd
    subst hd
    exact ⟨afterFallback_scores env q ranking, afterFallback_count env q ranking⟩

theorem raw_scores_drive_relevant_count_witness :
    envOneYes.store = some docsTwo ∧
    (run_agentic_rag envOneYes "q" true).debug_info = some dOneYes ∧
    (dOneYes.chunk_scores =
        ((docsTwo.take 5).map Doc.page_content).map (scoreOf envOneYes "q") ++
          (if (pass1 envOneYes "q" docsTwo).1 = [] then
            fbScores envOneYes "q" ((docsTwo.take 10).drop 5) else []) ∧
      dOneYes.relevant_chunks = dOneYes.chunk_scores.count "yes") :=
  ⟨rfl, by decide,
    raw_scores_drive_relevant_count envOneYes "q" true docsTwo rfl dOneYes (by decide)⟩

end MiniRag
